import Mathlib

/-!
Shallow embedding of `src/main.py` of the llm-word-game-arena repository:
a two-model word-snake arena. `swap_roles` flips the user/assistant roles
of a chat transcript; `run_experiment` plays one game between model A and
model B, writing a single result row when the game ends; `run_experiments`
plays a batch of games in sequence.

Python strings are modelled as Lean `String`, with the operations the code
uses (`.strip()`, `.lower()`, `in`-substring test, `len`) written out over
the underlying character list so that everything reduces in the kernel.
The external `ollama.chat` call is modelled as a function from the message
list to `Except Unit String`: `.ok content` for a normal return,
`.error ()` for a raised exception.
-/

namespace WordGame

/-- A chat message, the Python dict `{"role": ..., "content": ...}`. -/
structure Message where
  role : String
  content : String
deriving DecidableEq, Repr

/-- A row written by `save_winner_to_csv`:
`{"experiment_number": ..., "winner": ..., "reason": ...}`. -/
structure Row where
  experiment_number : Nat
  winner : String
  reason : String
deriving DecidableEq, Repr

/-- ASCII lowercasing of one character, as Python `str.lower` acts on the
ASCII range (the only range the keyword tests touch). -/
def to_lower_char (c : Char) : Char :=
  if 65 ≤ c.toNat ∧ c.toNat ≤ 90 then Char.ofNat (c.toNat + 32) else c

/-- Python `str.lower()`. -/
def str_lower (s : String) : String :=
  String.mk (s.data.map to_lower_char)

/-- The whitespace characters Python `str.strip()` removes. -/
def is_space_char (c : Char) : Bool :=
  c == ' ' || c == '\t' || c == '\n' || c == '\r' || c == '\x0b' || c == '\x0c'

/-- Python `str.strip()`: drop whitespace from both ends. -/
def str_strip (s : String) : String :=
  String.mk (((s.data.dropWhile is_space_char).reverse.dropWhile is_space_char).reverse)

/-- Whether `p` occurs at the start of `s`. -/
def starts_with : List Char → List Char → Bool
  | _, [] => true
  | [], _ :: _ => false
  | c :: cs, p :: ps => c == p && starts_with cs ps

/-- Whether the pattern occurs somewhere in the character list. -/
def contains_sub (pat : List Char) : List Char → Bool
  | [] => starts_with [] pat
  | c :: cs => starts_with (c :: cs) pat || contains_sub pat cs

/-- Python `pat in s` for strings. -/
def str_contains (s pat : String) : Bool :=
  contains_sub pat.data s.data

/-- Python `len(s)`. -/
def str_len (s : String) : Nat :=
  s.data.length

/-- Role reversal of a single message: the body of the loop of
`swap_roles` in `src/main.py` (lines 21-34). -/
def swap_message (message : Message) : Message :=
  let role := message.role
  let role_reversed :=
    if role = "user" then "assistant"
    else if role = "assistant" then "user"
    else role
  { role := role_reversed, content := message.content }

/-- `swap_roles` from `src/main.py`: swap the user/assistant roles of every
message, preserving contents and order. -/
def swap_roles (messages : List Message) : List Message :=
  messages.map swap_message

/-- The system prompt of `run_experiment` (the Python triple-quoted string,
with its literal newlines and indentation). -/
def system_prompt : String :=
  "\n                You are playing a game of word-snake.\n                In this game, you need to respond with an animal name that starts with the last letter of the previous animal mentioned.\n                You are not allowed to repeat any animal that has already been mentioned.\n                If the other player breaks a rule, respond with: \x27Disqualified [reason].\x27\n                If you can\x27t think of a valid animal name, respond with: \x27I forfeit the game.\x27\n                Otherwise, Respond only with the animal name. Do not include any other text.\n                "

/-- The initial transcript of `run_experiment` (lines 73-89). -/
def initial_messages (starting_animal : String) : List Message :=
  [ { role := "system", content := system_prompt },
    { role := "user", content := starting_animal } ]

/-- An external model call: `.ok content` when `chat` returns normally,
`.error ()` when it raises. -/
abbrev Agent : Type := List Message → Except Unit String

/-- Result of one iteration of the loop of `run_experiment`. -/
inductive StepResult where
  /-- No termination condition fired; the game continues with the extended
  transcript. -/
  | next (messages : List Message)
  /-- A termination condition fired: `row` is the row written to the CSV,
  and `messages` the transcript after the final reply was appended. -/
  | ended (row : Row) (messages : List Message)
  /-- The model call raised; nothing was written. -/
  | failed
deriving DecidableEq, Repr

/-- One iteration of the loop of `run_experiment` (lines 92-135): pick the
active model from the parity of `i`, call it (model B on the role-swapped
transcript), strip the reply, append it with the canonical storage role,
then test the three termination conditions in order. -/
def game_step (agent_a agent_b : Agent) (experiment_id i : Nat)
    (messages : List Message) : StepResult :=
  let current_model_name := if i % 2 == 0 then "A" else "B"
  let call := if i % 2 == 0 then agent_a messages else agent_b (swap_roles messages)
  match call with
  | .error _ => .failed
  | .ok raw =>
    let response_content := str_strip raw
    let response_role := if i % 2 == 0 then "assistant" else "user"
    let other_model_name := if current_model_name == "A" then "B" else "A"
    let messages' := messages ++ [{ role := response_role, content := response_content }]
    if str_contains (str_lower response_content) "forfeit" then
      .ended { experiment_number := experiment_id,
               winner := if current_model_name == "A" then "Model B" else "Model A",
               reason := current_model_name ++ " forfeited" } messages'
    else if str_contains (str_lower response_content) "disqualified" then
      .ended { experiment_number := experiment_id,
               winner := if current_model_name == "B" then "Model B" else "Model A",
               reason := other_model_name ++ " disqualified: " ++ response_content } messages'
    else if str_len response_content > 30 then
      .ended { experiment_number := experiment_id,
               winner := if current_model_name == "A" then "Model B" else "Model A",
               reason := current_model_name ++ " response too long (so not an animal)" } messages'
    else
      .next messages'

/-- The transcript carried out of a loop iteration: the extended transcript
in the two non-raising cases, `none` when the call raised (the append on
lines 109-114 never ran). -/
def step_messages : StepResult → Option (List Message)
  | .next messages => some messages
  | .ended _ messages => some messages
  | .failed => none

/-- Result of one game: `finished rows` when the loop ran to a conclusion
(`rows` being every row written for that game), `aborted rows` when a model
call raised and the exception escaped `run_experiment`. -/
inductive RunResult where
  | finished (rows : List Row)
  | aborted (rows : List Row)
deriving DecidableEq, Repr

/-- The `for i in range(0, max_turns + 1)` loop of `run_experiment`, with
`fuel` the number of iterations left and `i` the current index; the
`for`/`else` clause (lines 137-139) writes the no-winner row when the fuel
runs out without a break. -/
def run_from (agent_a agent_b : Agent) (experiment_id : Nat) :
    Nat → Nat → List Message → RunResult
  | _, 0, _ =>
    .finished [{ experiment_number := experiment_id,
                 winner := "No winner", reason := "No conclusion" }]
  | i, fuel + 1, messages =>
    match game_step agent_a agent_b experiment_id i messages with
    | .next messages' => run_from agent_a agent_b experiment_id (i + 1) fuel messages'
    | .ended row _ => .finished [row]
    | .failed => .aborted []

/-- `run_experiment` from `src/main.py`: one game of `max_turns + 1`
iterations starting from the initial transcript. -/
def run_experiment (agent_a agent_b : Agent) (experiment_id max_turns : Nat)
    (starting_animal : String) : RunResult :=
  run_from agent_a agent_b experiment_id 0 (max_turns + 1)
    (initial_messages starting_animal)

/-- The `for experiment in range(1, num_experiments + 1)` loop of
`run_experiments` (lines 166-182). The agents take the experiment id, since
the external service may answer differently in each game. The Boolean
records whether an exception escaped the loop; rows of all games accumulate
in one list (the shared CSV file). There is no `try`/`except` around the
`run_experiment` call, so an aborted game ends the loop. -/
def run_experiments_from (agent_a agent_b : Nat → Agent)
    (max_turns : Nat) (starting_animal : String) :
    Nat → Nat → List Row → List Row × Bool
  | _, 0, acc => (acc, false)
  | k, n + 1, acc =>
    match run_experiment (agent_a k) (agent_b k) k max_turns starting_animal with
    | .finished rows =>
      run_experiments_from agent_a agent_b max_turns starting_animal (k + 1) n (acc ++ rows)
    | .aborted rows => (acc ++ rows, true)

/-- `run_experiments` from `src/main.py`: games `1 .. num_experiments` in
order, all writing to the same CSV. -/
def run_experiments (agent_a agent_b : Nat → Agent)
    (num_experiments max_turns : Nat) (starting_animal : String) : List Row × Bool :=
  run_experiments_from agent_a agent_b max_turns starting_animal 1 num_experiments []

/-! Concrete agents used to witness the theorems on small inputs. -/

/-- A model that always answers a short animal name. -/
def lion_agent : Agent := fun _ => .ok "Lion"

/-- A model that always forfeits. -/
def forfeit_agent : Agent := fun _ => .ok "I forfeit the game."

/-- A model that always calls out a disqualification. -/
def dq_agent : Agent := fun _ => .ok "Disqualified repeated animal"

/-- A model that answers a 45-character string that is not a keyword. -/
def long_agent : Agent := fun _ => .ok "ABCDEFGHIJKLMNOPQRSTUVWXYZABCDEFGHIJKLMNOPQRS"

/-- A model whose reply contains both keywords and is longer than 30
characters, to exercise the branch ordering. -/
def both_agent : Agent := fun _ => .ok "Disqualified: I forfeit this word-snake game now"

/-- A model call that raises. -/
def fail_agent : Agent := fun _ => .error ()

/-- A family over games: the call raises in game 1 and forfeits in all
later games. -/
def fail_then_forfeit : Nat → Agent :=
  fun k => if k == 1 then fail_agent else forfeit_agent

/-- Every game gets the short-animal model. -/
def lion_family : Nat → Agent := fun _ => lion_agent

/-- A sample transcript touching every role class: system, user, assistant,
and a role outside the three. -/
def demo_messages : List Message :=
  [ { role := "system", content := "rules" },
    { role := "user", content := "Giraffe" },
    { role := "assistant", content := "Elephant" },
    { role := "tool", content := "noise" } ]

/-! Helper lemmas shared between the claim theorems. -/

theorem swap_message_involutive (m : Message) : swap_message (swap_message m) = m := by
  cases m with
  | mk r c =>
    by_cases h1 : r = "user"
    · simp [swap_message, h1]
    · by_cases h2 : r = "assistant" <;> simp [swap_message, h1, h2]

theorem swap_roles_swap_roles (ms : List Message) : swap_roles (swap_roles ms) = ms := by
  have h : swap_message ∘ swap_message = id := funext swap_message_involutive
  rw [swap_roles, swap_roles, List.map_map, h, List.map_id]

/-- C4. Role-swap round trip: `swap_roles` is an involution on every
message list, so the view built for Agent A and the view built for Agent B
are role-complements of each other on every non-system message; per
message, "user" and "assistant" are exchanged while "system" and any role
outside the three are passed through unchanged. -/
theorem C4_swap_roles_involution (ms : List Message) :
    swap_roles (swap_roles ms) = ms ∧
    ∀ m ∈ ms,
      (m.role = "user" → (swap_message m).role = "assistant") ∧
      (m.role = "assistant" → (swap_message m).role = "user") ∧
      (m.role ≠ "user" → m.role ≠ "assistant" → (swap_message m).role = m.role) := by
  refine ⟨swap_roles_swap_roles ms, ?_⟩
  intro m _
  refine ⟨fun h1 => by simp [swap_message, h1], fun h2 => ?_, fun h1 h2 => ?_⟩
  · by_cases h1 : m.role = "user"
    · rw [h1] at h2; exact absurd h2 (by decide)
    · simp [swap_message, h1, h2]
  · simp [swap_message, h1, h2]

/-- C4 witness: the round trip and the user/assistant exchange evaluated
on a concrete four-message transcript. -/
theorem C4_swap_roles_involution_witness :
    swap_roles (swap_roles demo_messages) = demo_messages ∧
    (swap_message { role := "user", content := "Giraffe" }).role = "assistant" :=
  ⟨(C4_swap_roles_involution demo_messages).1,
   ((C4_swap_roles_involution demo_messages).2
      { role := "user", content := "Giraffe" } (by decide)).1 rfl⟩

theorem run_from_of_ended (agent_a agent_b : Agent) (experiment_id i fuel : Nat)
    (ms ms' : List Message) (row : Row)
    (h : game_step agent_a agent_b experiment_id i ms = .ended row ms') :
    run_from agent_a agent_b experiment_id i (fuel + 1) ms = .finished [row] := by
  simp [run_from, h]

/-- C3. Forfeit rule and its priority: a turn whose trimmed reply contains
the case-insensitive substring "forfeit" ends the game at once, with the
non-speaking model as winner and reason "\x7bspeaker\x7d forfeited" — with
no hypothesis at all on the reply's length or on "disqualified", because
the forfeit branch is tested first. -/
theorem C3_forfeit_rule (agent_a agent_b : Agent) (experiment_id i : Nat)
    (ms : List Message) (raw : String)
    (hcall : (if i % 2 == 0 then agent_a ms else agent_b (swap_roles ms)) = .ok raw)
    (hff : str_contains (str_lower (str_strip raw)) "forfeit" = true) :
    game_step agent_a agent_b experiment_id i ms =
      .ended { experiment_number := experiment_id,
               winner := if i % 2 == 0 then "Model B" else "Model A",
               reason := (if i % 2 == 0 then "A" else "B") ++ " forfeited" }
        (ms ++ [{ role := if i % 2 == 0 then "assistant" else "user",
                  content := str_strip raw }]) ∧
    ∀ fuel, run_from agent_a agent_b experiment_id i (fuel + 1) ms =
      .finished [{ experiment_number := experiment_id,
                   winner := if i % 2 == 0 then "Model B" else "Model A",
                   reason := (if i % 2 == 0 then "A" else "B") ++ " forfeited" }] := by
  have hstep : game_step agent_a agent_b experiment_id i ms =
      .ended { experiment_number := experiment_id,
               winner := if i % 2 == 0 then "Model B" else "Model A",
               reason := (if i % 2 == 0 then "A" else "B") ++ " forfeited" }
        (ms ++ [{ role := if i % 2 == 0 then "assistant" else "user",
                  content := str_strip raw }]) := by
    cases hpar : (i % 2 == 0) <;> simp [hpar] at hcall ⊢ <;>
      simp [game_step, hpar, hcall, hff]
  exact ⟨hstep, fun fuel =>
    run_from_of_ended agent_a agent_b experiment_id i fuel ms _ _ hstep⟩

/-- C3 witness: a turn-0 reply containing "forfeit" and "Disqualified" and
longer than 30 characters still resolves as a forfeit by A, so Model B
wins. -/
theorem C3_forfeit_rule_witness :
    run_experiment both_agent both_agent 1 200 "Giraffe" =
      .finished [{ experiment_number := 1, winner := "Model B", reason := "A forfeited" }] := by
  have h := C3_forfeit_rule both_agent both_agent 1 0 (initial_messages "Giraffe")
      "Disqualified: I forfeit this word-snake game now" rfl (by decide)
  simpa [run_experiment] using h.2 200

/-- C1 counterexample: on turn 0 Agent A itself utters "Disqualified ...";
the code then awards the win to Model A — the speaker — not to the
speaker's opponent Model B as the claim states. -/
theorem C1_counterexample :
    run_experiment dq_agent dq_agent 1 200 "Giraffe" =
      .finished [{ experiment_number := 1, winner := "Model A",
                   reason := "B disqualified: Disqualified repeated animal" }] ∧
    ("Model A" : String) ≠ "Model B" :=
  ⟨by decide, by decide⟩

/-- C1 (amended). Disqualification rule: a turn whose trimmed reply
contains the case-insensitive substring "disqualified" and not "forfeit"
ends the game with the SPEAKING model as winner (the accuser wins), and
the recorded reason is "\x7baccused\x7d disqualified: \x7breply\x7d" where
the accused is the non-speaking agent and the reply is the trimmed reply
text. -/
theorem C1_disqualify_rule (agent_a agent_b : Agent) (experiment_id i : Nat)
    (ms : List Message) (raw : String)
    (hcall : (if i % 2 == 0 then agent_a ms else agent_b (swap_roles ms)) = .ok raw)
    (hdq : str_contains (str_lower (str_strip raw)) "disqualified" = true)
    (hff : str_contains (str_lower (str_strip raw)) "forfeit" = false) :
    game_step agent_a agent_b experiment_id i ms =
      .ended { experiment_number := experiment_id,
               winner := if i % 2 == 0 then "Model A" else "Model B",
               reason := (if i % 2 == 0 then "B" else "A") ++ " disqualified: " ++ str_strip raw }
        (ms ++ [{ role := if i % 2 == 0 then "assistant" else "user",
                  content := str_strip raw }]) ∧
    ∀ fuel, run_from agent_a agent_b experiment_id i (fuel + 1) ms =
      .finished [{ experiment_number := experiment_id,
                   winner := if i % 2 == 0 then "Model A" else "Model B",
                   reason := (if i % 2 == 0 then "B" else "A") ++ " disqualified: " ++ str_strip raw }] := by
  have hstep : game_step agent_a agent_b experiment_id i ms =
      .ended { experiment_number := experiment_id,
               winner := if i % 2 == 0 then "Model A" else "Model B",
               reason := (if i % 2 == 0 then "B" else "A") ++ " disqualified: " ++ str_strip raw }
        (ms ++ [{ role := if i % 2 == 0 then "assistant" else "user",
                  content := str_strip raw }]) := by
    cases hpar : (i % 2 == 0) <;> simp [hpar] at hcall ⊢ <;>
      simp [game_step, hpar, hcall, hdq, hff]
  exact ⟨hstep, fun fuel =>
    run_from_of_ended agent_a agent_b experiment_id i fuel ms _ _ hstep⟩

/-- C1 witness for the amended rule: the counterexample scenario, derived
from the general theorem — the accusing speaker's model wins. -/
theorem C1_disqualify_rule_witness :
    run_experiment dq_agent dq_agent 2 5 "Giraffe" =
      .finished [{ experiment_number := 2, winner := "Model A",
                   reason := "B disqualified: Disqualified repeated animal" }] := by
  have h := C1_disqualify_rule dq_agent dq_agent 2 0 (initial_messages "Giraffe")
      "Disqualified repeated animal" rfl (by decide) (by decide)
  simpa [run_experiment] using h.2 5

/-- C7. Too-long rule: a turn whose trimmed reply is longer than 30
characters and contains neither keyword ends the game with the non-speaking
model as winner and reason
"\x7bspeaker\x7d response too long (so not an animal)". -/
theorem C7_too_long_rule (agent_a agent_b : Agent) (experiment_id i : Nat)
    (ms : List Message) (raw : String)
    (hcall : (if i % 2 == 0 then agent_a ms else agent_b (swap_roles ms)) = .ok raw)
    (hff : str_contains (str_lower (str_strip raw)) "forfeit" = false)
    (hdq : str_contains (str_lower (str_strip raw)) "disqualified" = false)
    (hlen : str_len (str_strip raw) > 30) :
    game_step agent_a agent_b experiment_id i ms =
      .ended { experiment_number := experiment_id,
               winner := if i % 2 == 0 then "Model B" else "Model A",
               reason := (if i % 2 == 0 then "A" else "B") ++ " response too long (so not an animal)" }
        (ms ++ [{ role := if i % 2 == 0 then "assistant" else "user",
                  content := str_strip raw }]) ∧
    ∀ fuel, run_from agent_a agent_b experiment_id i (fuel + 1) ms =
      .finished [{ experiment_number := experiment_id,
                   winner := if i % 2 == 0 then "Model B" else "Model A",
                   reason := (if i % 2 == 0 then "A" else "B") ++ " response too long (so not an animal)" }] := by
  have hstep : game_step agent_a agent_b experiment_id i ms =
      .ended { experiment_number := experiment_id,
               winner := if i % 2 == 0 then "Model B" else "Model A",
               reason := (if i % 2 == 0 then "A" else "B") ++ " response too long (so not an animal)" }
        (ms ++ [{ role := if i % 2 == 0 then "assistant" else "user",
                  content := str_strip raw }]) := by
    cases hpar : (i % 2 == 0) <;> simp [hpar] at hcall ⊢ <;>
      simp [game_step, hpar, hcall, hff, hdq, hlen]
  exact ⟨hstep, fun fuel =>
    run_from_of_ended agent_a agent_b experiment_id i fuel ms _ _ hstep⟩

/-- C7 witness: the claim's Scenario B — a 45-character non-keyword reply
by Agent A on turn 0 makes Model B win with the exact reason string. -/
theorem C7_too_long_rule_witness :
    run_experiment long_agent long_agent 1 200 "Giraffe" =
      .finished [{ experiment_number := 1, winner := "Model B",
                   reason := "A response too long (so not an animal)" }] := by
  have h := C7_too_long_rule long_agent long_agent 1 0 (initial_messages "Giraffe")
      "ABCDEFGHIJKLMNOPQRSTUVWXYZABCDEFGHIJKLMNOPQRS"
      rfl (by decide) (by decide) (by decide)
  simpa [run_experiment] using h.2 200

/-- C6. Turn alternation and canonical storage: on an even turn only
Agent A is consulted (the result is independent of the B agent) and it
reads the canonical transcript; when its call returns, the trimmed reply
is appended with storage role "assistant". On an odd turn only Agent B is
consulted, on the role-swapped view, and its trimmed reply is appended
with storage role "user". The reply is trimmed before it is stored (and
the termination tests of C1/C3/C7 read the same trimmed text). -/
theorem C6_turn_alternation (agent_a agent_a2 agent_b agent_b2 : Agent)
    (experiment_id i : Nat) (ms : List Message) (raw : String) :
    (i % 2 = 0 →
      game_step agent_a agent_b experiment_id i ms =
        game_step agent_a agent_b2 experiment_id i ms ∧
      (agent_a ms = .ok raw →
        step_messages (game_step agent_a agent_b experiment_id i ms) =
          some (ms ++ [{ role := "assistant", content := str_strip raw }]))) ∧
    (i % 2 = 1 →
      game_step agent_a agent_b experiment_id i ms =
        game_step agent_a2 agent_b experiment_id i ms ∧
      (agent_b (swap_roles ms) = .ok raw →
        step_messages (game_step agent_a agent_b experiment_id i ms) =
          some (ms ++ [{ role := "user", content := str_strip raw }]))) := by
  constructor
  · intro hpar
    have hb : (i % 2 == 0) = true := by simp [hpar]
    refine ⟨by simp [game_step, hb], fun hcall => ?_⟩
    simp [game_step, hb, hcall]
    repeat' split
    all_goals simp [step_messages]
  · intro hpar
    have hb : (i % 2 == 0) = false := by simp [hpar]
    refine ⟨by simp [game_step, hb], fun hcall => ?_⟩
    simp [game_step, hb, hcall]
    repeat' split
    all_goals simp [step_messages]

/-- C6 witness: both parities evaluated on a concrete transcript — turn 0
stores A's reply as "assistant", turn 1 stores B's reply as "user". -/
theorem C6_turn_alternation_witness :
    step_messages (game_step lion_agent forfeit_agent 1 0 demo_messages) =
      some (demo_messages ++ [{ role := "assistant", content := str_strip "Lion" }]) ∧
    step_messages (game_step lion_agent forfeit_agent 1 1 demo_messages) =
      some (demo_messages ++ [{ role := "user", content := str_strip "I forfeit the game." }]) :=
  ⟨((C6_turn_alternation lion_agent lion_agent forfeit_agent forfeit_agent
      1 0 demo_messages "Lion").1 rfl).2 rfl,
   ((C6_turn_alternation lion_agent lion_agent forfeit_agent forfeit_agent
      1 1 demo_messages "I forfeit the game.").2 rfl).2 rfl⟩

theorem game_step_ended_row (agent_a agent_b : Agent) (experiment_id i : Nat)
    (ms ms' : List Message) (row : Row)
    (h : game_step agent_a agent_b experiment_id i ms = .ended row ms') :
    row.experiment_number = experiment_id ∧
      (row.winner = "Model A" ∨ row.winner = "Model B") := by
  rcases hc : (if i % 2 == 0 then agent_a ms else agent_b (swap_roles ms)) with e | raw
  · simp only [game_step, hc] at h
    exact StepResult.noConfusion h
  · simp only [game_step, hc] at h
    split at h
    · cases h; exact ⟨rfl, by split <;> simp⟩
    · split at h
      · cases h; exact ⟨rfl, by split <;> simp⟩
      · split at h
        · cases h; exact ⟨rfl, by split <;> simp⟩
        · cases h

theorem run_from_finished_rows (agent_a agent_b : Agent) (experiment_id : Nat) :
    ∀ fuel i ms rows,
      run_from agent_a agent_b experiment_id i fuel ms = .finished rows →
      rows.length = 1 ∧ ∀ r ∈ rows, r.experiment_number = experiment_id ∧
        (r.winner = "Model A" ∨ r.winner = "Model B" ∨ r.winner = "No winner") := by
  intro fuel
  induction fuel with
  | zero =>
    intro i ms rows h
    simp only [run_from, RunResult.finished.injEq] at h
    subst h
    simp
  | succ fuel ih =>
    intro i ms rows h
    cases hstep : game_step agent_a agent_b experiment_id i ms with
    | next ms' =>
      simp only [run_from, hstep] at h
      exact ih (i + 1) ms' rows h
    | ended row ms' =>
      simp only [run_from, hstep, RunResult.finished.injEq] at h
      subst h
      rcases game_step_ended_row agent_a agent_b experiment_id i ms ms' row hstep
        with ⟨he, hw⟩
      refine ⟨rfl, fun r hr => ?_⟩
      rw [List.mem_singleton] at hr
      subst hr
      exact ⟨he, Or.imp_right Or.inl hw⟩
    | failed =>
      simp only [run_from, hstep] at h
      exact RunResult.noConfusion h

/-- C2. One-outcome invariant: whenever a game's model calls all return
normally (the run is `finished`), exactly one row is written — its list of
rows has length one — and that row carries the game's id and a winner
among "Model A", "Model B", "No winner". -/
theorem C2_exactly_one_row (agent_a agent_b : Agent) (experiment_id max_turns : Nat)
    (starting_animal : String) (rows : List Row)
    (h : run_experiment agent_a agent_b experiment_id max_turns starting_animal =
      .finished rows) :
    rows.length = 1 ∧ ∀ r ∈ rows, r.experiment_number = experiment_id ∧
      (r.winner = "Model A" ∨ r.winner = "Model B" ∨ r.winner = "No winner") := by
  unfold run_experiment at h
  exact run_from_finished_rows agent_a agent_b experiment_id (max_turns + 1) 0
    (initial_messages starting_animal) rows h

/-- C2 witness: a concrete forfeit game produces exactly one row with a
legal winner value. -/
theorem C2_exactly_one_row_witness :
    run_experiment forfeit_agent forfeit_agent 1 0 "Giraffe" =
      .finished [{ experiment_number := 1, winner := "Model B", reason := "A forfeited" }] ∧
    ([{ experiment_number := 1, winner := "Model B", reason := "A forfeited" }] : List Row).length = 1 :=
  ⟨by decide,
   (C2_exactly_one_row forfeit_agent forfeit_agent 1 0 "Giraffe"
      [{ experiment_number := 1, winner := "Model B", reason := "A forfeited" }] (by decide)).1⟩

theorem run_from_all_next (agent_a agent_b : Agent) (experiment_id : Nat)
    (H : ∀ i ms, ∃ ms', game_step agent_a agent_b experiment_id i ms = .next ms') :
    ∀ fuel i ms, run_from agent_a agent_b experiment_id i fuel ms =
      .finished [{ experiment_number := experiment_id,
                   winner := "No winner", reason := "No conclusion" }] := by
  intro fuel
  induction fuel with
  | zero => intro i ms; simp [run_from]
  | succ fuel ih =>
    intro i ms
    obtain ⟨ms', hstep⟩ := H i ms
    simp [run_from, hstep, ih]

/-- C5. Exhaustion outcome: when no termination predicate fires on any
iteration (every loop step continues), the game runs through all
`max_turns + 1` indices and produces exactly the no-winner row
\x7bwinner: "No winner", reason: "No conclusion"\x7d. -/
theorem C5_no_conclusion (agent_a agent_b : Agent) (experiment_id max_turns : Nat)
    (starting_animal : String)
    (H : ∀ i ms, ∃ ms', game_step agent_a agent_b experiment_id i ms = .next ms') :
    run_experiment agent_a agent_b experiment_id max_turns starting_animal =
      .finished [{ experiment_number := experiment_id,
                   winner := "No winner", reason := "No conclusion" }] := by
  unfold run_experiment
  exact run_from_all_next agent_a agent_b experiment_id H (max_turns + 1) 0
    (initial_messages starting_animal)

/-- C5 witness: two models that always answer "Lion" never trigger a
termination predicate, so a 3-iteration game ends with no winner. -/
theorem C5_no_conclusion_witness :
    run_experiment lion_agent lion_agent 1 2 "Giraffe" =
      .finished [{ experiment_number := 1,
                   winner := "No winner", reason := "No conclusion" }] := by
  have h1 : str_contains (str_lower (str_strip "Lion")) "forfeit" = false := by decide
  have h2 : str_contains (str_lower (str_strip "Lion")) "disqualified" = false := by decide
  have h3 : ¬ (str_len (str_strip "Lion") > 30) := by decide
  exact C5_no_conclusion lion_agent lion_agent 1 2 "Giraffe" (by
    intro i ms
    refine ⟨ms ++ [{ role := if i % 2 == 0 then "assistant" else "user",
                     content := str_strip "Lion" }], ?_⟩
    cases hpar : (i % 2 == 0) <;> simp [game_step, lion_agent, hpar, h1, h2, h3])

theorem run_from_aborted_rows (agent_a agent_b : Agent) (experiment_id : Nat) :
    ∀ fuel i ms rows,
      run_from agent_a agent_b experiment_id i fuel ms = .aborted rows → rows = [] := by
  intro fuel
  induction fuel with
  | zero => intro i ms rows h; simp [run_from] at h
  | succ fuel ih =>
    intro i ms rows h
    cases hstep : game_step agent_a agent_b experiment_id i ms with
    | next ms' =>
      simp only [run_from, hstep] at h
      exact ih (i + 1) ms' rows h
    | ended row ms' => simp [run_from, hstep] at h
    | failed =>
      simp only [run_from, hstep, RunResult.aborted.injEq] at h
      exact h.symm

/-- C8. Abort atomicity: when a model call raises during a game, the
exception escapes before anything is written, so the aborted game
contributes no row at all to the result sink. -/
theorem C8_abort_writes_nothing (agent_a agent_b : Agent) (experiment_id max_turns : Nat)
    (starting_animal : String) (rows : List Row)
    (h : run_experiment agent_a agent_b experiment_id max_turns starting_animal =
      .aborted rows) :
    rows = [] := by
  unfold run_experiment at h
  exact run_from_aborted_rows agent_a agent_b experiment_id (max_turns + 1) 0
    (initial_messages starting_animal) rows h

/-- C8 witness: a game whose first call raises aborts with an empty list of
written rows. -/
theorem C8_abort_writes_nothing_witness :
    run_experiment fail_agent fail_agent 1 0 "Giraffe" = .aborted [] ∧
    ([] : List Row) = [] :=
  ⟨by decide, C8_abort_writes_nothing fail_agent fail_agent 1 0 "Giraffe" [] (by decide)⟩

/-- C9 counterexample: in a 2-game batch where game 1's first call raises,
the runner stops at once — no row is ever produced, although running
game 2 by itself would have produced its forfeit row. The claim that the
runner still proceeds to the remaining games is false of the code: there
is no `try`/`except` around the `run_experiment` call. -/
theorem C9_counterexample :
    run_experiments fail_then_forfeit lion_family 2 0 "Giraffe" = ([], true) ∧
    run_experiment (fail_then_forfeit 2) (lion_family 2) 2 0 "Giraffe" =
      .finished [{ experiment_number := 2, winner := "Model B", reason := "A forfeited" }] :=
  ⟨by decide, by decide⟩

/-- C9 (amended). Batch abort propagation: when game k's run raises, the
runner's loop stops at game k with the exception propagating — whatever
the number of games still pending, none of them is run and no further row
is written. -/
theorem C9_batch_abort (agent_a agent_b : Nat → Agent) (max_turns : Nat)
    (starting_animal : String) (k n : Nat) (acc rows : List Row)
    (h : run_experiment (agent_a k) (agent_b k) k max_turns starting_animal =
      .aborted rows) :
    run_experiments_from agent_a agent_b max_turns starting_animal k (n + 1) acc =
      (acc ++ rows, true) := by
  simp [run_experiments_from, h]

/-- C9 witness for the amended claim: the 2-game batch of the
counterexample, derived from the general abort theorem. -/
theorem C9_batch_abort_witness :
    run_experiments_from fail_then_forfeit lion_family 0 "Giraffe" 1 2 [] = ([], true) := by
  have h := C9_batch_abort fail_then_forfeit lion_family 0 "Giraffe" 1 1 [] [] (by decide)
  simpa using h

/-- C10. Frame property of `swap_roles`: the output has the same length as
the input, the messages stay in the same order, and every output message
keeps the content of the corresponding input message — only the role field
may change (the input itself is untouched: `swap_roles` builds a fresh
list). -/
theorem C10_swap_roles_frame (ms : List Message) :
    (swap_roles ms).length = ms.length ∧
    ∀ i : Nat, ((swap_roles ms)[i]?).map Message.content = (ms[i]?).map Message.content := by
  refine ⟨by simp [swap_roles], fun i => ?_⟩
  rw [swap_roles, List.getElem?_map]
  cases ms[i]? <;> simp [swap_message]

end WordGame
